import Mathlib

/-!
Verification development for the sat-python repository: a shallow embedding
of its calibration engine, metadata resolver, binary record decoder, and
scan-geometry navigation model, together with theorems settling the frozen
claims about the natural-language specification.

Conventions of the embedding:
* machine counts are `Nat`, byte-stream positions are `Int` (Python indices
  can go negative), physical values carried exactly are `Rat`, and the
  continuous navigation arithmetic is over `Real`;
* `NaN` cells of a floating-point result array are `Option` `none`;
* a Python exception is an `Except.error` carrying a `PyErr` tag named after
  the specification's error taxonomy (the source raises `RuntimeError` where
  the taxonomy says `FormatError`, a bare `raise` where it says
  `SchemaError`, and so on).
-/

/-- Error taxonomy: tags for the Python exceptions the embedded code can
raise, named after the specification's taxonomy where one applies. -/
inductive PyErr where
  | formatError
  | indexError
  | valueError
  | typeError
  | nameError
  | keyError
  | attributeError
  | schemaError
deriving DecidableEq, Repr

deriving instance DecidableEq for Except

/-- Python `int(x)` on a float: truncation toward zero. -/
def pyInt (q : ℚ) : ℤ :=
  if 0 ≤ q.num then ((q.num.toNat / q.den : ℕ) : ℤ)
  else -(((-q.num).toNat / q.den : ℕ) : ℤ)

/-- Python negative-style list indexing `l[-k]` (`k > 0`): `IndexError`
when the list is shorter than `k`. -/
def pyNegIdx {α : Type} (l : List α) (k : ℕ) : Except PyErr α :=
  if 0 < k ∧ k ≤ l.length then
    match l.get? (l.length - k) with
    | some a => Except.ok a
    | none => Except.error PyErr.indexError
  else Except.error PyErr.indexError

/-- Python list indexing `l[i]` with negative wrap-around. -/
def pyListGet {α : Type} (l : List α) (i : ℤ) : Except PyErr α :=
  let j : ℤ := if i < 0 then i + l.length else i
  if 0 ≤ j then
    match l.get? j.toNat with
    | some a => Except.ok a
    | none => Except.error PyErr.indexError
  else Except.error PyErr.indexError

/-- Python slice `buf[i:j]` on a byte string: indices are clamped, a
negative index counts from the end, and an empty range gives `[]`. -/
def pySlice (buf : List ℕ) (i j : ℤ) : List ℕ :=
  let n : ℤ := buf.length
  let a := if i < 0 then max (n + i) 0 else min i n
  let b := if j < 0 then max (n + j) 0 else min j n
  if a < b then ((buf.drop a.toNat).take (b - a).toNat) else []

/-- `np.arange(a, b, 1)` over integers: empty when `b ≤ a`. -/
def pyArange (a b : ℤ) : List ℤ :=
  (List.range (b - a).toNat).map (fun i => a + (i : ℤ))

/-- Python `dict` update `m[k] = v`: replace in place when the key exists,
append otherwise (insertion order preserved). -/
def pyDictSet {α : Type} (m : List (String × α)) (k : String) (v : α) :
    List (String × α) :=
  if m.any (fun p => p.1 == k) then
    m.map (fun p => if p.1 == k then (k, v) else p)
  else m ++ [(k, v)]

/-- Python `dict` lookup `m[k]`: `KeyError` when absent. -/
def pyDictGet {α : Type} (m : List (String × α)) (k : String) :
    Except PyErr α :=
  match m.find? (fun p => p.1 == k) with
  | some p => Except.ok p.2
  | none => Except.error PyErr.keyError

/-- Python `str.split(sep)` on a character list: every occurrence of the
separator splits, empty fields are kept. -/
def splitOnChar (sep : Char) : List Char → List (List Char)
  | [] => [[]]
  | c :: rest =>
    match splitOnChar sep rest with
    | [] => if c = sep then [[], [c]] else [[c]]
    | g :: gs => if c = sep then [] :: g :: gs else (c :: g) :: gs

/-- Python `s.split(sep)` for a one-character separator. -/
def pySplit (s : String) (sep : Char) : List String :=
  (splitOnChar sep s.toList).map (fun cs => String.mk cs)

/-- Python slice `s[:-n]`: drop the last `n` characters. -/
def pyDropRight (s : String) (n : ℕ) : String :=
  String.mk (s.toList.take (s.toList.length - n))

/-- Python slice `s[-n:]`: the last `min n len` characters. -/
def pyTakeRight (s : String) (n : ℕ) : String :=
  String.mk (s.toList.drop (s.toList.length - n))

/-- Python `s.startswith(p)`. -/
def pyStartsWith (s p : String) : Bool :=
  p.toList.isPrefixOf s.toList

/-- Python `float()` restricted to strings of decimal digits, the shape the
filename tokens take; any other string is a `ValueError`. -/
def pyFloatDigits (s : String) : Except PyErr ℚ :=
  if s.length ≠ 0 ∧ s.toList.all Char.isDigit then
    Except.ok ((s.toList.foldl (fun n c => 10 * n + (c.toNat - 48)) 0 : ℕ) : ℚ)
  else Except.error PyErr.valueError

/-! ## Calibration engine: lookup substitution

Embeds the common body of `agri.calibrate` (FY4B.py lines 93-123),
`fy4a_agri.calibrate` (FY4A.py lines 181-211) and `fy4a_giirs.calibrate`
(FY4A.py lines 286-312): the per-channel count-to-physical-value lookup. -/

/-- `nom_mask`: `(nom_channel >= nom_min) & (nom_channel <= nom_max) &
(nom_channel != nom_fill_value)`, per pixel. -/
def nomMask (nomMin nomMax nomFill : ℕ) (c : ℕ) : Bool :=
  decide (nomMin ≤ c) && decide (c ≤ nomMax) && decide (c ≠ nomFill)

/-- `cal_mask`: `(cal_channel >= cal_min) | (cal_channel <= cal_max)`, per
table entry. -/
def calMask (calMin calMax : ℚ) (v : ℚ) : Bool :=
  decide (calMin ≤ v) || decide (v ≤ calMax)

/-- The sentinel `int(cal_min - 10)` that table fill entries are remapped
to before the gather. -/
def sentinel (calMin : ℚ) : ℚ :=
  (pyInt (calMin - 10) : ℚ)

/-- `cal_channel[cal_channel == cal_fill_value] = int(cal_min - 10)`, per
table entry. -/
def remapFill (calMin calFill : ℚ) (v : ℚ) : ℚ :=
  if v = calFill then sentinel calMin else v

/-- The gathered table `cal_channel[cal_mask]` as it stands at the gather:
positions selected by `cal_mask` on the original entries, carrying the
fill-remapped values. -/
def gatherTable (calMin calMax calFill : ℚ) (table : List ℚ) : List ℚ :=
  (table.filter (fun v => calMask calMin calMax v)).map (remapFill calMin calFill)

/-- One pixel of the lookup calibration: a masked pixel gathers
`cal_channel[cal_mask][count]` (an out-of-bounds count is Python's
`IndexError`), the sentinel and every unmasked pixel become NaN. -/
def calibratePixel (nomMin nomMax nomFill : ℕ) (calMin calMax calFill : ℚ)
    (table : List ℚ) (c : ℕ) : Except PyErr (Option ℚ) :=
  if nomMask nomMin nomMax nomFill c then
    match (gatherTable calMin calMax calFill table).get? c with
    | none => Except.error PyErr.indexError
    | some v => Except.ok (if v = sentinel calMin then none else some v)
  else Except.ok none

/-- The whole-channel lookup calibration: elementwise `calibratePixel`,
aborting on the first error as the vectorized gather does. -/
def lookupCalibrate (nomMin nomMax nomFill : ℕ) (calMin calMax calFill : ℚ)
    (table : List ℚ) : List ℕ → Except PyErr (List (Option ℚ))
  | [] => Except.ok []
  | c :: cs =>
    match calibratePixel nomMin nomMax nomFill calMin calMax calFill table c with
    | Except.error e => Except.error e
    | Except.ok v =>
      match lookupCalibrate nomMin nomMax nomFill calMin calMax calFill table cs with
      | Except.error e => Except.error e
      | Except.ok vs => Except.ok (v :: vs)

lemma calMask_eq_true (calMin calMax : ℚ) (h : calMin ≤ calMax) (v : ℚ) :
    calMask calMin calMax v = true := by
  unfold calMask
  rcases le_or_lt calMin v with hv | hv
  · simp [hv]
  · have : v ≤ calMax := le_trans hv.le h
    simp [this]

lemma filter_calMask_eq_self (calMin calMax : ℚ) (h : calMin ≤ calMax)
    (table : List ℚ) :
    table.filter (fun v => calMask calMin calMax v) = table := by
  apply List.filter_eq_self.mpr
  intro v _
  exact calMask_eq_true calMin calMax h v

lemma pyInt_lt_add_one (q : ℚ) : (pyInt q : ℚ) < q + 1 := by
  have hd : (0 : ℚ) < (q.den : ℚ) := by exact_mod_cast q.den_pos
  unfold pyInt
  split
  · rename_i hnum
    rw [Int.cast_natCast]
    have h1 : ((q.num.toNat / q.den : ℕ) : ℚ) * (q.den : ℚ) ≤ (q.num.toNat : ℚ) := by
      exact_mod_cast Nat.div_mul_le_self q.num.toNat q.den
    have h2 : ((q.num.toNat : ℕ) : ℚ) = (q.num : ℚ) := by
      exact_mod_cast Int.toNat_of_nonneg hnum
    have h3 : ((q.num.toNat / q.den : ℕ) : ℚ) ≤ (q.num : ℚ) / (q.den : ℚ) := by
      rw [le_div_iff₀ hd, ← h2]
      exact h1
    have h4 : (q.num : ℚ) / (q.den : ℚ) = q := Rat.num_div_den q
    linarith
  · rename_i hnum
    rw [Int.cast_neg, Int.cast_natCast]
    have hnum' : q.num < 0 := lt_of_not_le hnum
    set m : ℕ := (-q.num).toNat with hm
    have hmq : ((m : ℕ) : ℚ) = -(q.num : ℚ) := by
      have h0 : ((-q.num).toNat : ℤ) = -q.num := Int.toNat_of_nonneg (by omega)
      exact_mod_cast h0
    have hdm : m % q.den < q.den := Nat.mod_lt m q.den_pos
    have hsplit : q.den * (m / q.den) + m % q.den = m := Nat.div_add_mod m q.den
    have h1 : (m : ℕ) < (m / q.den + 1) * q.den := by
      calc (m : ℕ) = q.den * (m / q.den) + m % q.den := hsplit.symm
        _ < q.den * (m / q.den) + q.den := by omega
        _ = (m / q.den + 1) * q.den := by ring
    have h2 : ((m : ℕ) : ℚ) < (((m / q.den : ℕ) : ℚ) + 1) * (q.den : ℚ) := by
      exact_mod_cast h1
    have h3 : -(q.num : ℚ) / (q.den : ℚ) < ((m / q.den : ℕ) : ℚ) + 1 := by
      rw [div_lt_iff₀ hd, ← hmq]
      exact h2
    have h4 : (q.num : ℚ) / (q.den : ℚ) = q := Rat.num_div_den q
    have h5 : -(q.num : ℚ) / (q.den : ℚ) = -q := by
      rw [neg_div, h4]
    rw [h5] at h3
    linarith

lemma sentinel_lt (calMin : ℚ) : sentinel calMin < calMin := by
  unfold sentinel
  have h := pyInt_lt_add_one (calMin - 10)
  linarith

lemma sentinel_zero : sentinel 0 = -10 := by
  have h0 : (0 - 10 : ℚ) = -10 := by norm_num
  rw [sentinel, h0]
  decide

lemma gatherTable_get? (calMin calMax calFill : ℚ) (h : calMin ≤ calMax)
    (table : List ℚ) (c : ℕ) :
    (gatherTable calMin calMax calFill table).get? c =
      (table.get? c).map (remapFill calMin calFill) := by
  unfold gatherTable
  rw [filter_calMask_eq_self calMin calMax h]
  simp [List.get?_eq_getElem?, List.getElem?_map]

lemma calibratePixel_unmasked (nomMin nomMax nomFill : ℕ)
    (calMin calMax calFill : ℚ) (table : List ℚ) (c : ℕ)
    (h : nomMask nomMin nomMax nomFill c = false) :
    calibratePixel nomMin nomMax nomFill calMin calMax calFill table c =
      Except.ok none := by
  unfold calibratePixel
  simp [h]

lemma calibratePixel_masked (nomMin nomMax nomFill : ℕ)
    (calMin calMax calFill : ℚ) (table : List ℚ) (c : ℕ) (e : ℚ)
    (hcal : calMin ≤ calMax)
    (hm : nomMask nomMin nomMax nomFill c = true)
    (he : table.get? c = some e) :
    calibratePixel nomMin nomMax nomFill calMin calMax calFill table c =
      Except.ok (if remapFill calMin calFill e = sentinel calMin then none
        else some (remapFill calMin calFill e)) := by
  unfold calibratePixel
  rw [gatherTable_get? calMin calMax calFill hcal, he]
  simp [hm]

/-- Relates an `ok` run of the whole-channel calibration to the per-pixel
function at each index. -/
lemma lookupCalibrate_get? (nomMin nomMax nomFill : ℕ)
    (calMin calMax calFill : ℚ) (table : List ℚ) :
    ∀ (counts : List ℕ) (res : List (Option ℚ)),
      lookupCalibrate nomMin nomMax nomFill calMin calMax calFill table counts =
        Except.ok res →
      res.length = counts.length ∧
      ∀ i c, counts.get? i = some c →
        ∃ v, calibratePixel nomMin nomMax nomFill calMin calMax calFill table c =
            Except.ok v ∧ res.get? i = some v := by
  intro counts
  induction counts with
  | nil =>
    intro res h
    unfold lookupCalibrate at h
    cases h
    exact ⟨rfl, by intro i c hc; simp at hc⟩
  | cons c0 cs ih =>
    intro res h
    unfold lookupCalibrate at h
    cases hp : calibratePixel nomMin nomMax nomFill calMin calMax calFill table c0 with
    | error e => rw [hp] at h; cases h
    | ok v0 =>
      rw [hp] at h
      cases hr : lookupCalibrate nomMin nomMax nomFill calMin calMax calFill table cs with
      | error e => rw [hr] at h; cases h
      | ok vs =>
        rw [hr] at h
        cases h
        obtain ⟨hlen, hidx⟩ := ih vs hr
        refine ⟨by simp [hlen], ?_⟩
        intro i c hc
        cases i with
        | zero =>
          simp at hc
          subst hc
          exact ⟨v0, hp, rfl⟩
        | succ j =>
          simp only [List.get?_cons_succ] at hc ⊢
          exact hidx j c hc

/-- C1. Lookup-substitution calibration: with a coherent table valid range
(`cal_min ≤ cal_max`), non-fill table entries inside their declared range,
and counts addressable in the table, every pixel whose count is outside
`[valid_min, valid_max]` or equal to the fill value yields NaN, and every
in-range non-fill pixel yields exactly the table entry at that count, a
fill table entry (remapped to the sentinel `int(cal_min - 10)`) becoming
NaN in the result. -/
theorem C1_lookup_substitution (nomMin nomMax nomFill : ℕ)
    (calMin calMax calFill : ℚ) (table : List ℚ) (counts : List ℕ)
    (res : List (Option ℚ))
    (hcal : calMin ≤ calMax)
    (hrange : ∀ e ∈ table, e ≠ calFill → calMin ≤ e)
    (hok : lookupCalibrate nomMin nomMax nomFill calMin calMax calFill table
      counts = Except.ok res) :
    res.length = counts.length ∧
    ∀ i c, counts.get? i = some c →
      ((c < nomMin ∨ nomMax < c ∨ c = nomFill) → res.get? i = some none) ∧
      (∀ e, nomMin ≤ c → c ≤ nomMax → c ≠ nomFill → table.get? c = some e →
        ((e = calFill → res.get? i = some none) ∧
         (e ≠ calFill → res.get? i = some (some e)))) := by
  obtain ⟨hlen, hpix⟩ :=
    lookupCalibrate_get? nomMin nomMax nomFill calMin calMax calFill table
      counts res hok
  refine ⟨hlen, ?_⟩
  intro i c hc
  obtain ⟨v, hv, hres⟩ := hpix i c hc
  constructor
  · intro hout
    have hmask : nomMask nomMin nomMax nomFill c = false := by
      unfold nomMask
      rcases hout with h | h | h
      · have hn : ¬ (nomMin ≤ c) := Nat.not_le.mpr h
        simp [hn]
      · have hn : ¬ (c ≤ nomMax) := Nat.not_le.mpr h
        simp [hn]
      · simp [h]
    rw [calibratePixel_unmasked _ _ _ _ _ _ _ _ hmask] at hv
    cases hv
    exact hres
  · intro e h1 h2 h3 he
    have hmask : nomMask nomMin nomMax nomFill c = true := by
      unfold nomMask
      simp [h1, h2, h3]
    rw [calibratePixel_masked _ _ _ _ _ _ _ _ _ hcal hmask he] at hv
    constructor
    · intro hfill
      have : remapFill calMin calFill e = sentinel calMin := by
        unfold remapFill
        simp [hfill]
      rw [this] at hv
      simp at hv
      cases hv
      exact hres
    · intro hnfill
      have hre : remapFill calMin calFill e = e := by
        unfold remapFill
        simp [hnfill]
      have hmem : e ∈ table := by
        have := List.get?_mem he
        exact this
      have hlow : calMin ≤ e := hrange e hmem hnfill
      have hne : e ≠ sentinel calMin := by
        intro habs
        have := sentinel_lt calMin
        rw [← habs] at this
        exact absurd hlow (not_le_of_lt this)
      rw [hre] at hv
      simp [hne] at hv
      cases hv
      exact hres

/-- Witness for C1 at a concrete channel: table `[5, 7, 65535]` with valid
range `[0, 100]` and fill `65535`, counts `[0, 1, 2, 255, 11]` with valid
range `[0, 10]` and fill `255`. -/
theorem C1_lookup_substitution_witness :
    ((0 : ℚ) ≤ 100) ∧ (2 : ℕ) < 3 ∧
    (lookupCalibrate 0 10 255 0 100 65535 [5, 7, 65535] [0, 1, 2, 255, 11] =
      Except.ok [some 5, some 7, none, none, none]) ∧
    ([some 5, some 7, none, none, (none : Option ℚ)].get? 2 = some none) := by
  have hrun : lookupCalibrate 0 10 255 0 100 65535 [5, 7, 65535]
      [0, 1, 2, 255, 11] = Except.ok [some 5, some 7, none, none, none] := by
    norm_num [lookupCalibrate, calibratePixel, gatherTable, remapFill, nomMask,
      calMask, sentinel_zero]
  refine ⟨by norm_num, by norm_num, hrun, ?_⟩
  have h := C1_lookup_substitution 0 10 255 0 100 65535 [5, 7, 65535]
    [0, 1, 2, 255, 11] [some 5, some 7, none, none, none]
    (by norm_num) (by norm_num) hrun
  have h2 := (h.2 2 2 (by decide)).2 65535 (by decide) (by decide) (by decide)
    (by decide)
  exact h2.1 rfl

/-- C10. Calibration-table mask tautology: when `cal_min ≤ cal_max`, the
mask `(value ≥ cal_min) OR (value ≤ cal_max)` is true at every table entry,
so selecting through it is the identity and the valid-range test removes no
entry from the gather. -/
theorem C10_mask_tautology (calMin calMax calFill : ℚ) (table : List ℚ)
    (hcal : calMin ≤ calMax) :
    (∀ v ∈ table, calMask calMin calMax v = true) ∧
    table.filter (fun v => calMask calMin calMax v) = table ∧
    gatherTable calMin calMax calFill table =
      table.map (remapFill calMin calFill) := by
  refine ⟨fun v _ => calMask_eq_true calMin calMax hcal v,
    filter_calMask_eq_self calMin calMax hcal table, ?_⟩
  unfold gatherTable
  rw [filter_calMask_eq_self calMin calMax hcal]

/-- Witness for C10 at a concrete table. -/
theorem C10_mask_tautology_witness :
    ((0 : ℚ) ≤ 100) ∧
    ([(-3 : ℚ), 50, 200].filter (fun v => calMask 0 100 v) = [-3, 50, 200]) := by
  refine ⟨by norm_num, ?_⟩
  exact (C10_mask_tautology 0 100 65535 [-3, 50, 200] (by norm_num)).2.1

/-! ## FY4A AGRI dataset object and its `calibrate` method

Embeds `fy4a_agri` (FY4A.py lines 167-211): the HDF file is an association
list of channel datasets, the instance attributes are the fields the
method touches, and `calibrated_data` is `Option`-valued because neither
`fy4_L1.__init__` nor `fy4a_agri` ever creates that attribute. -/

/-- An HDF5 dataset as `calibrate` reads it: either a raw count channel
(`NOMChannel..`, unsigned counts with `valid_range` and `FillValue`) or a
calibration table (`CALChannel..`). -/
inductive H5Entry where
  | nomChan (counts : List ℕ) (vmin vmax fill : ℕ)
  | calChan (table : List ℚ) (vmin vmax fill : ℚ)
deriving DecidableEq

/-- The `fy4a_agri` instance state touched by `calibrate`. -/
structure FY4AAgriObj where
  fileInfo : List (String × H5Entry)
  vars : List String
  data : List (String × List ℕ)
  calibratedData : Option (List (String × List (Option ℚ)))
deriving DecidableEq

/-- The channel loop of `fy4a_agri.calibrate`: per variable, look up the
NOM dataset and its `CALChannel` partner, run the lookup calibration, then
execute `self.calibrated_data[v] = target_channel` — an `AttributeError`
when the attribute does not exist.  The final `return
self.calibrated_data` is the list case. -/
def fy4aAgriCalGo (o : FY4AAgriObj) :
    List String → FY4AAgriObj × Except PyErr (List (String × List (Option ℚ)))
  | [] =>
    match o.calibratedData with
    | none => (o, Except.error PyErr.attributeError)
    | some m => (o, Except.ok m)
  | v :: rest =>
    match pyDictGet o.fileInfo v with
    | Except.error e => (o, Except.error e)
    | Except.ok (H5Entry.calChan _ _ _ _) => (o, Except.error PyErr.typeError)
    | Except.ok (H5Entry.nomChan counts nmin nmax nfill) =>
      match pyDictGet o.fileInfo (String.append "CALChannel" (v.drop 10)) with
      | Except.error e => (o, Except.error e)
      | Except.ok (H5Entry.nomChan _ _ _ _) => (o, Except.error PyErr.typeError)
      | Except.ok (H5Entry.calChan table cmin cmax cfill) =>
        match lookupCalibrate nmin nmax nfill cmin cmax cfill table counts with
        | Except.error e => (o, Except.error e)
        | Except.ok target =>
          match o.calibratedData with
          | none => (o, Except.error PyErr.attributeError)
          | some m =>
            fy4aAgriCalGo { o with calibratedData := some (pyDictSet m v target) }
              rest

/-- `fy4a_agri.calibrate`: first `self.data = {}`, then the channel loop. -/
def fy4aAgriCalibrate (o : FY4AAgriObj) :
    FY4AAgriObj × Except PyErr (List (String × List (Option ℚ))) :=
  fy4aAgriCalGo { o with data := [] } o.vars

/-- C5. `fy4a_agri.calibrate` with at least one channel variable and no
pre-existing `calibrated_data` attribute (as left by `__init__`) raises
`AttributeError` on the first channel — after having rebound `self.data`
to an empty dict, discarding the loaded raw channel arrays — and never
returns the calibrated mapping. -/
theorem C5_calibrate_attribute_error (o : FY4AAgriObj) (v : String)
    (vs : List String) (counts : List ℕ) (nmin nmax nfill : ℕ)
    (table : List ℚ) (cmin cmax cfill : ℚ) (target : List (Option ℚ))
    (hv : o.vars = v :: vs)
    (hinit : o.calibratedData = none)
    (hn : pyDictGet o.fileInfo v = Except.ok (H5Entry.nomChan counts nmin nmax nfill))
    (hc : pyDictGet o.fileInfo (String.append "CALChannel" (v.drop 10)) =
      Except.ok (H5Entry.calChan table cmin cmax cfill))
    (ht : lookupCalibrate nmin nmax nfill cmin cmax cfill table counts =
      Except.ok target) :
    fy4aAgriCalibrate o =
      ({ o with data := [] }, Except.error PyErr.attributeError) := by
  unfold fy4aAgriCalibrate
  rw [hv]
  unfold fy4aAgriCalGo
  simp only [hn, hc, ht, hinit]

/-- Witness for C5 at a concrete one-channel dataset. -/
theorem C5_calibrate_attribute_error_witness :
    fy4aAgriCalibrate
      { fileInfo := [("NOMChannel01", H5Entry.nomChan [0] 0 1 255),
                     ("CALChannel01", H5Entry.calChan [5] 0 100 65535)],
        vars := ["NOMChannel01"],
        data := [("NOMChannel01", [0])],
        calibratedData := none } =
      ({ fileInfo := [("NOMChannel01", H5Entry.nomChan [0] 0 1 255),
                      ("CALChannel01", H5Entry.calChan [5] 0 100 65535)],
         vars := ["NOMChannel01"],
         data := [],
         calibratedData := none },
       Except.error PyErr.attributeError) := by
  have ht : lookupCalibrate 0 1 255 0 100 65535 [5] [0] =
      Except.ok [some 5] := by
    norm_num [lookupCalibrate, calibratePixel, gatherTable, remapFill, nomMask,
      calMask, sentinel_zero]
  exact C5_calibrate_attribute_error _ "NOMChannel01" [] [0] 0 1 255 [5] 0 100
    65535 [some 5] rfl rfl (by decide) (by decide) ht

/-! ## Metadata resolver

Embeds the construction-time metadata extraction shared by
`fy4_L1.__init__` (FY4A.py lines 97-144) and `agri.__init__` (FY4B.py
lines 15-62): sub-satellite-longitude fallback chain, filename resolution
token, and the begin/end line/pixel extents. -/

/-- The attribute map of an FY-4 L1 file, restricted to the keys the
constructor reads (the observing date/time strings, always present in a
standard file, are omitted). -/
structure FY4Attrs where
  fileName : Option String
  nomSubSatLon : Option ℚ
  nomCenterLon : Option ℚ
  beginLine : ℤ
  endLine : ℤ
  beginPixel : ℤ
  endPixel : ℤ
deriving DecidableEq

/-- The metadata `fy4_L1.__init__` produces. -/
structure FY4Meta where
  fileNameOut : String
  subSatLon : ℚ
  resolution : ℚ
  lines : List ℤ
  columns : List ℤ
deriving DecidableEq

/-- The sub-satellite-longitude block of the constructor: the
`NOMSubSatLon` attribute, else `NOMCenterLon`, else the 9th-from-last
underscore token of the filename, which must be 5 characters ending in
`E` (`FormatError` otherwise, the source's `RuntimeError`), its leading
digits divided by 10. -/
def resolveSubLon (a : FY4Attrs) (fname : String) : Except PyErr ℚ :=
  match a.nomSubSatLon with
  | some v => Except.ok v
  | none =>
    match a.nomCenterLon with
    | some v => Except.ok v
    | none =>
      match pyNegIdx (pySplit fname '_') 9 with
      | Except.error e => Except.error e
      | Except.ok stok =>
        if stok.length ≠ 5 ∨ stok.toList.getLast? ≠ some 'E' then
          Except.error PyErr.formatError
        else
          match pyFloatDigits (pyDropRight stok 1) with
          | Except.error e => Except.error e
          | Except.ok q => Except.ok (q / 10)

/-- The resolution block of the constructor: the 2nd-from-last underscore
token, suffix `km`/`KM` times 1000, suffix `m`/`M` as is, `FormatError`
otherwise. -/
def resolveResolution (fname : String) : Except PyErr ℚ :=
  match pyNegIdx (pySplit fname '_') 2 with
  | Except.error e => Except.error e
  | Except.ok rtok =>
    if pyTakeRight rtok 2 = "km" ∨ pyTakeRight rtok 2 = "KM" then
      match pyFloatDigits (pyDropRight rtok 2) with
      | Except.error e => Except.error e
      | Except.ok q => Except.ok (q * 1000)
    else if pyTakeRight rtok 1 = "m" ∨ pyTakeRight rtok 1 = "M" then
      match pyFloatDigits (pyDropRight rtok 1) with
      | Except.error e => Except.error e
      | Except.ok q => Except.ok q
    else Except.error PyErr.formatError

/-- `fy4_L1.__init__` after the HDF open: filename (attribute, else the
path's base name), sub-satellite longitude, resolution, and the
`np.arange` line/column extents — with no End-versus-Begin validation. -/
def fy4Init (a : FY4Attrs) (fpathBase : String) : Except PyErr FY4Meta :=
  let fname := match a.fileName with
    | some s => s
    | none => fpathBase
  match resolveSubLon a fname with
  | Except.error e => Except.error e
  | Except.ok lon =>
    match resolveResolution fname with
    | Except.error e => Except.error e
    | Except.ok res =>
      Except.ok { fileNameOut := fname, subSatLon := lon, resolution := res,
                  lines := pyArange a.beginLine (a.endLine + 1),
                  columns := pyArange a.beginPixel (a.endPixel + 1) }

lemma pyArange_nil (a b : ℤ) (h : b ≤ a) : pyArange a b = [] := by
  unfold pyArange
  have hz : (b - a).toNat = 0 := by omega
  rw [hz]
  rfl

/-- C6 counterexample. The constructor is given `End Line Number = 3 <
5 = Begin Line Number` yet succeeds (with an empty line range) instead of
raising `FormatError`. -/
theorem C6_counterexample :
    (3 : ℤ) < 5 ∧
    fy4Init { fileName := some "X_4000M_Y", nomSubSatLon := some 105,
              nomCenterLon := none, beginLine := 5, endLine := 3,
              beginPixel := 1, endPixel := 2 } "" =
      Except.ok { fileNameOut := "X_4000M_Y", subSatLon := 105,
                  resolution := 4000, lines := [], columns := [1, 2] } := by
  refine ⟨by norm_num, ?_⟩
  decide

/-- C6 amended: dataset construction performs no End-versus-Begin
validation — with the longitude and resolution metadata resolving, it
succeeds for every choice of extents, and an inverted axis merely yields
an empty line or column range. -/
theorem C6_no_extent_validation (a : FY4Attrs) (fp fn : String) (lon res : ℚ)
    (hfn : a.fileName = some fn)
    (hlon : resolveSubLon a fn = Except.ok lon)
    (hres : resolveResolution fn = Except.ok res) :
    fy4Init a fp = Except.ok
      { fileNameOut := fn, subSatLon := lon, resolution := res,
        lines := pyArange a.beginLine (a.endLine + 1),
        columns := pyArange a.beginPixel (a.endPixel + 1) } ∧
    (a.endLine < a.beginLine → pyArange a.beginLine (a.endLine + 1) = []) ∧
    (a.endPixel < a.beginPixel → pyArange a.beginPixel (a.endPixel + 1) = []) := by
  refine ⟨?_, fun h => pyArange_nil _ _ (by omega),
    fun h => pyArange_nil _ _ (by omega)⟩
  unfold fy4Init
  simp only [hfn, hlon, hres]

/-- Witness for C6 amended at the counterexample input. -/
theorem C6_no_extent_validation_witness :
    fy4Init { fileName := some "X_4000M_Y", nomSubSatLon := some 105,
              nomCenterLon := none, beginLine := 7, endLine := 4,
              beginPixel := 1, endPixel := 2 } "p" =
      Except.ok { fileNameOut := "X_4000M_Y", subSatLon := 105,
                  resolution := 4000, lines := pyArange 7 5,
                  columns := pyArange 1 3 } := by
  exact (C6_no_extent_validation _ "p" "X_4000M_Y" 105 4000 rfl (by decide)
    (by decide)).1

/-- C7. Filename metadata resolution when no longitude attribute is
present: a 5-character 9th-from-last token with digit prefix and suffix
`E` yields sub-satellite longitude digits/10, and the 2nd-from-last
token's suffix selects resolution times-1000 (`km`/`KM`), as-is (`m`/`M`),
or `FormatError`; a malformed longitude token is a `FormatError`. -/
theorem C7_filename_metadata (a : FY4Attrs) (fp fn stok rtok : String)
    (hlonA : a.nomSubSatLon = none) (hlonB : a.nomCenterLon = none)
    (hfn : a.fileName = some fn)
    (hstok : pyNegIdx (pySplit fn '_') 9 = Except.ok stok)
    (hrtok : pyNegIdx (pySplit fn '_') 2 = Except.ok rtok) :
    (∀ q p : ℚ,
      stok.length = 5 → stok.toList.getLast? = some 'E' →
      pyFloatDigits (pyDropRight stok 1) = Except.ok q →
      (((pyTakeRight rtok 2 = "km" ∨ pyTakeRight rtok 2 = "KM") →
        pyFloatDigits (pyDropRight rtok 2) = Except.ok p →
        fy4Init a fp = Except.ok
          { fileNameOut := fn, subSatLon := q / 10, resolution := p * 1000,
            lines := pyArange a.beginLine (a.endLine + 1),
            columns := pyArange a.beginPixel (a.endPixel + 1) }) ∧
      (¬(pyTakeRight rtok 2 = "km" ∨ pyTakeRight rtok 2 = "KM") →
        (pyTakeRight rtok 1 = "m" ∨ pyTakeRight rtok 1 = "M") →
        pyFloatDigits (pyDropRight rtok 1) = Except.ok p →
        fy4Init a fp = Except.ok
          { fileNameOut := fn, subSatLon := q / 10, resolution := p,
            lines := pyArange a.beginLine (a.endLine + 1),
            columns := pyArange a.beginPixel (a.endPixel + 1) }) ∧
      (¬(pyTakeRight rtok 2 = "km" ∨ pyTakeRight rtok 2 = "KM") →
        ¬(pyTakeRight rtok 1 = "m" ∨ pyTakeRight rtok 1 = "M") →
        fy4Init a fp = Except.error PyErr.formatError))) ∧
    ((stok.length ≠ 5 ∨ stok.toList.getLast? ≠ some 'E') →
      fy4Init a fp = Except.error PyErr.formatError) := by
  constructor
  · intro q p h5 hE hq
    have hlon : resolveSubLon a fn = Except.ok (q / 10) := by
      unfold resolveSubLon
      rw [hlonA, hlonB, hstok]
      simp only [h5, hE, hq]
      simp
    refine ⟨?_, ?_, ?_⟩
    · intro hkm hp
      have hres : resolveResolution fn = Except.ok (p * 1000) := by
        unfold resolveResolution
        rw [hrtok]
        simp only [if_pos hkm, hp]
      unfold fy4Init
      simp only [hfn, hlon, hres]
    · intro hkm hm hp
      have hres : resolveResolution fn = Except.ok p := by
        unfold resolveResolution
        rw [hrtok]
        simp only [if_neg hkm, if_pos hm, hp]
      unfold fy4Init
      simp only [hfn, hlon, hres]
    · intro hkm hm
      have hres : resolveResolution fn = Except.error PyErr.formatError := by
        unfold resolveResolution
        rw [hrtok]
        simp only [if_neg hkm, if_neg hm]
      unfold fy4Init
      simp only [hfn, hlon, hres]
  · intro hbad
    have hlon : resolveSubLon a fn = Except.error PyErr.formatError := by
      unfold resolveSubLon
      rw [hlonA, hlonB, hstok]
      simp only [if_pos hbad]
    unfold fy4Init
    simp only [hfn, hlon]

/-- Witness for C7 on the filename shape of the specification's example:
token `1047E` gives longitude 104.7 and token `016KM` gives 16000 m. -/
theorem C7_filename_metadata_witness :
    fy4Init { fileName := some "A_B_1047E_D_E1_F_G_H_I_016KM_J",
              nomSubSatLon := none, nomCenterLon := none,
              beginLine := 0, endLine := 1, beginPixel := 0, endPixel := 1 }
      "" =
      Except.ok { fileNameOut := "A_B_1047E_D_E1_F_G_H_I_016KM_J",
                  subSatLon := 1047 / 10, resolution := 16 * 1000,
                  lines := pyArange 0 2, columns := pyArange 0 2 } := by
  have h := C7_filename_metadata
    { fileName := some "A_B_1047E_D_E1_F_G_H_I_016KM_J",
      nomSubSatLon := none, nomCenterLon := none,
      beginLine := 0, endLine := 1, beginPixel := 0, endPixel := 1 }
    "" "A_B_1047E_D_E1_F_G_H_I_016KM_J" "1047E" "016KM"
    rfl rfl rfl (by decide) (by decide)
  exact ((h.1 1047 16 (by decide) (by decide) (by decide)).1 (by decide)
    (by decide))

/-! ## Binary record decoder

Embeds `himawari8_hsd.read_binfile` (Himawari8.py lines 142-243): the
schema-driven sequential cursor over the raw byte buffer. Byte values are
`Nat` below 256, multi-byte unsigned integers decode little-endian, and
IEEE float fields are carried as their raw bytes (no claim inspects the
float values). -/

/-- The schema type codes of `Himawari_Standard_Data.json`: `i1`, `i2`,
`i4`, `C`, `R4`, `R8`, the empty string (block-trailing padding), and a
catch-all for an unrecognized code (the source's bare `raise`). -/
inductive DType where
  | i1
  | i2
  | i4
  | c
  | r4
  | r8
  | pad
  | unknown
deriving DecidableEq

/-- A decoded field value: little-endian unsigned integers, raw bytes of
4- or 8-byte floats, or raw text bytes. -/
inductive BVal where
  | uints (l : List ℕ)
  | raw4 (bytes : List ℕ)
  | raw8 (bytes : List ℕ)
  | chars (bytes : List ℕ)
deriving DecidableEq

/-- Little-endian value of a byte list. -/
def leNat : List ℕ → ℕ
  | [] => 0
  | b :: bs => b + 256 * leNat bs

/-- `np.frombuffer` for an unsigned dtype of the given item size:
`ValueError` when the buffer slice is not a whole number of items
(numpy's "buffer size must be a multiple of element size"), the
little-endian items otherwise — note that a short or empty slice is not
an error. -/
def fromBufferU (itemsize : ℕ) (s : List ℕ) : Except PyErr BVal :=
  if itemsize = 0 then Except.error PyErr.valueError
  else if s.length % itemsize ≠ 0 then Except.error PyErr.valueError
  else Except.ok (BVal.uints ((List.range (s.length / itemsize)).map
    (fun i => leNat ((s.drop (i * itemsize)).take itemsize))))

/-- `np.frombuffer` for a float dtype: same multiple-of-itemsize check,
value kept as raw bytes. -/
def fromBufferRaw (itemsize : ℕ) (s : List ℕ) (mk : List ℕ → BVal) :
    Except PyErr BVal :=
  if s.length % itemsize ≠ 0 then Except.error PyErr.valueError
  else Except.ok (mk s)

/-- Decode one slice according to the entry's dtype. -/
def fromBufferFor : DType → List ℕ → Except PyErr BVal
  | DType.i1, s => fromBufferU 1 s
  | DType.i2, s => fromBufferU 2 s
  | DType.i4, s => fromBufferU 4 s
  | DType.r4, s => fromBufferRaw 4 s BVal.raw4
  | DType.r8, s => fromBufferRaw 8 s BVal.raw8
  | DType.c, s => Except.ok (BVal.chars s)
  | DType.pad, s => Except.ok (BVal.chars s)
  | DType.unknown, _ => Except.error PyErr.schemaError

/-- The loop state of `read_binfile`: cursor `pos`, the most recent
`Block length` value (`none` is the initial `np.nan`), bytes consumed in
the current block, the running block index (starts at -1), the current
block dict (`none` before any `Block number` field — Python's undefined
`block` variable), and the accumulated `fileinfo`. -/
structure DecState where
  pos : ℤ
  blockLength : Option ℤ
  blockCount : ℤ
  blockIndex : ℤ
  block : Option (List (String × BVal))
  fileinfo : List (String × List (String × BVal))
deriving DecidableEq

/-- The fixed `block_names` table of `read_binfile`. -/
def blockNames : List String :=
  ["Basic information", "Data information", "Projection information",
   "Navigation information", "Calibration information",
   "Inter-calibration information", "Segment information",
   "Navigation correction information", "Observation time information",
   "Error information", "Spare", "Data"]

/-- The byte width the schema entry declares (`length` in the source);
for the padding pseudo-field the source computes `byte_nums * 40`, a
value the padding branch never uses. -/
def dtypeLength (dtype : DType) (byteNums : ℕ) : ℕ :=
  match dtype with
  | DType.i1 => byteNums
  | DType.i2 => 2 * byteNums
  | DType.i4 => 4 * byteNums
  | DType.c => byteNums
  | DType.r4 => 4 * byteNums
  | DType.r8 => 8 * byteNums
  | DType.pad => 40 * byteNums
  | DType.unknown => 0

/-- One iteration of the `read_binfile` loop for the schema entry
`(name, dtype, byte_nums)`: an unrecognized type code fails; a `Block
number` name opens a fresh block; the pixel-array field recomputes its
length from the selected area/band size and stores under
`fileinfo['Data']`; the padding pseudo-field skips
`block_length - block_count` bytes, resets the counter and files the
block under its `block_names` entry; other fields decode, land in the
current block (remembering a `Block length` value), and advance the
cursor. -/
def decodeStep (buf : List ℕ) (ewns : ℕ) (st : DecState)
    (name : String) (dtype : DType) (byteNums : ℕ) : Except PyErr DecState :=
  if dtype = DType.unknown then Except.error PyErr.schemaError
  else
    let st := if pyStartsWith name "Block number" then
        { st with block := some [], blockIndex := st.blockIndex + 1 }
      else st
    let isPixel := name = "Count value of each pixel"
    let length : ℕ := if isPixel then ewns * 2 else dtypeLength dtype byteNums
    let stE : Except PyErr DecState :=
      if isPixel then
        match fromBufferFor dtype (pySlice buf st.pos (st.pos + length)) with
        | Except.error e => Except.error e
        | Except.ok v =>
          Except.ok { st with fileinfo := pyDictSet st.fileinfo "Data" [(name, v)] }
      else Except.ok st
    match stE with
    | Except.error e => Except.error e
    | Except.ok st =>
      match dtype with
      | DType.pad =>
        match st.blockLength with
        | none => Except.error PyErr.typeError
        | some bl =>
          match st.block with
          | none => Except.error PyErr.nameError
          | some b =>
            match pyListGet blockNames st.blockIndex with
            | Except.error e => Except.error e
            | Except.ok bn =>
              Except.ok { st with
                pos := st.pos + (bl - st.blockCount),
                blockCount := 0,
                fileinfo := pyDictSet st.fileinfo bn b }
      | DType.c =>
        match st.block with
        | none => Except.error PyErr.nameError
        | some b =>
          Except.ok { st with
            block := some (pyDictSet b name
              (BVal.chars (pySlice buf st.pos (st.pos + length)))),
            pos := st.pos + length, blockCount := st.blockCount + length }
      | _ =>
        match fromBufferFor dtype (pySlice buf st.pos (st.pos + length)) with
        | Except.error e => Except.error e
        | Except.ok v =>
          match st.block with
          | none => Except.error PyErr.nameError
          | some b =>
            let st := { st with block := some (pyDictSet b name v) }
            let st :=
              if pyStartsWith name "Block length" then
                match v with
                | BVal.uints (x :: _) => some { st with blockLength := some (x : ℤ) }
                | BVal.uints [] => none
                | _ => some st
              else some st
            match st with
            | none => Except.error PyErr.indexError
            | some st =>
              Except.ok { st with
                pos := st.pos + length,
                blockCount := st.blockCount + length }

/-- The `for fm in formation_band` loop. -/
def decodeLoop (buf : List ℕ) (ewns : ℕ) :
    List (String × DType × ℕ) → DecState → Except PyErr DecState
  | [], st => Except.ok st
  | (name, dt, bn) :: rest, st =>
    match decodeStep buf ewns st name dt bn with
    | Except.error e => Except.error e
    | Except.ok st2 => decodeLoop buf ewns rest st2

/-- Initial loop state: `pos = 0`, `block_length = np.nan`,
`block_count = 0`, `block_index = -1`, `block` undefined. -/
def initState : DecState :=
  { pos := 0, blockLength := none, blockCount := 0, blockIndex := -1,
    block := none, fileinfo := [] }

/-- `read_binfile` on a pre-read buffer and a schema: run the loop and
return the decoded `fileinfo` mapping. -/
def readBinfile (buf : List ℕ) (ewns : ℕ)
    (schema : List (String × DType × ℕ)) :
    Except PyErr (List (String × List (String × BVal))) :=
  match decodeLoop buf ewns schema initState with
  | Except.error e => Except.error e
  | Except.ok st => Except.ok st.fileinfo

/-- The synthetic one-block schema of the specification's decoder test:
a block number, a declared block length, and a trailing padding
pseudo-field. -/
def schemaOneBlock : List (String × DType × ℕ) :=
  [("Block number of header block 1", DType.i1, 1),
   ("Block length of header block 1", DType.i2, 1),
   ("Spare", DType.pad, 1)]

/-- C2. Decoding the one-block schema against a 3-byte buffer whose
declared block length is 16 — a buffer far shorter than the declared
length — completes without any error: the padding skip merely moves the
cursor past the end of the buffer, so no `BufferBoundsError` (nor any
other exception) is raised. The skip itself is the declared block length
(16) minus the bytes consumed (3). -/
theorem C2_truncated_buffer_decodes :
    readBinfile [1, 16, 0] 0 schemaOneBlock =
      Except.ok [("Basic information",
        [("Block number of header block 1", BVal.uints [1]),
         ("Block length of header block 1", BVal.uints [16])])] ∧
    decodeLoop [1, 16, 0] 0 schemaOneBlock initState =
      Except.ok { pos := 3 + (16 - 3), blockLength := some 16,
                  blockCount := 0, blockIndex := 0, block :=
                    some [("Block number of header block 1", BVal.uints [1]),
                          ("Block length of header block 1", BVal.uints [16])],
                  fileinfo := [("Basic information",
                    [("Block number of header block 1", BVal.uints [1]),
                     ("Block length of header block 1", BVal.uints [16])])] } := by
  constructor
  · decide
  · decide

/-! ## Navigation model

Embeds the three textually identical scan-geometry bodies:
`lc2latlon` in FY4A.py (lines 6-89, resolution-selected constants,
hard-coded ellipsoid), `lc2latlon` in core/lc2latlon.py (lines 4-109,
parameter bag with the FY4 resolution branch), and
`lc2latlon_himawari8` in Himawari8.py (lines 8-94, parameter bag).
A pixel whose radicand is negative is NaN (`none`); real arithmetic
stands in for float64, and the float32 cast is not modelled. -/

/-- The shared geostationary (line, column)-to-(lon, lat) formula body.
Returns `none` when the viewing ray misses the ellipsoid (negative
radicand under `sd`). -/
noncomputable def navFormula (COFF LOFF CFAC LFAC h ea eb lambdaD : ℝ)
    (col row : ℝ) : Option (ℝ × ℝ) :=
  let x := Real.pi / 180 * (col - COFF) / (2 ^ (-16 : ℤ) * CFAC)
  let y := Real.pi / 180 * (row - LOFF) / (2 ^ (-16 : ℤ) * LFAC)
  let rad := (h * Real.cos x * Real.cos y) ^ 2 -
    (Real.cos y * Real.cos y + ea * ea / (eb * eb) * Real.sin y * Real.sin y) *
      (h * h - ea * ea)
  if rad < 0 then none
  else
    let sd := Real.sqrt rad
    let sn := (h * Real.cos x * Real.cos y - sd) /
      (Real.cos y * Real.cos y + ea * ea / (eb * eb) * Real.sin y * Real.sin y)
    let S1 := h - sn * Real.cos x * Real.cos y
    let S2 := sn * Real.sin x * Real.cos y
    let S3 := -sn * Real.sin y
    let Sxy := Real.sqrt (S1 * S1 + S2 * S2)
    let lon0 := 180 / Real.pi * Real.arctan (S2 / S1) + lambdaD
    let lat := 180 / Real.pi * Real.arctan (ea * ea / (eb * eb) * S3 / Sxy)
    let lon := if lon0 > 180 then lon0 - 360 else lon0
    some (lon, lat)

/-- The per-resolution COFF/LOFF of the FY-4 family. -/
noncomputable def fy4COFF (resolution : ℕ) : ℝ :=
  if resolution = 250 then 21983.5
  else if resolution = 500 then 10991.5
  else if resolution = 1000 then 5495.5
  else if resolution = 2000 then 2747.5
  else 1373.5

/-- The per-resolution CFAC/LFAC of the FY-4 family. -/
noncomputable def fy4CFAC (resolution : ℕ) : ℝ :=
  if resolution = 250 then 163730199
  else if resolution = 500 then 81865099
  else if resolution = 1000 then 40932549
  else if resolution = 2000 then 20466274
  else 10233137

/-- The valid FY-4 resolutions. -/
def fy4Resolutions : List ℕ := [250, 500, 1000, 2000, 4000]

/-- `lc2latlon` of FY4A.py: resolution selects the scale constants
(`ValueError` otherwise), the ellipsoid is hard-coded, and the body is
the shared formula. -/
noncomputable def fy4aNav (col row : ℝ) (resolution : ℕ) (lambdaD h : ℝ) :
    Except PyErr (Option (ℝ × ℝ)) :=
  if resolution = 250 ∨ resolution = 500 ∨ resolution = 1000 ∨
      resolution = 2000 ∨ resolution = 4000 then
    let COFF := fy4COFF resolution
    let CFAC := fy4CFAC resolution
    let LOFF := fy4COFF resolution
    let LFAC := fy4CFAC resolution
    let ea : ℝ := 6378.137
    let eb : ℝ := 6356.7523
    let x := Real.pi / 180 * (col - COFF) / (2 ^ (-16 : ℤ) * CFAC)
    let y := Real.pi / 180 * (row - LOFF) / (2 ^ (-16 : ℤ) * LFAC)
    let rad := (h * Real.cos x * Real.cos y) ^ 2 -
      (Real.cos y * Real.cos y + ea * ea / (eb * eb) * Real.sin y * Real.sin y) *
        (h * h - ea * ea)
    Except.ok (if rad < 0 then none
    else
      let sd := Real.sqrt rad
      let sn := (h * Real.cos x * Real.cos y - sd) /
        (Real.cos y * Real.cos y + ea * ea / (eb * eb) * Real.sin y * Real.sin y)
      let S1 := h - sn * Real.cos x * Real.cos y
      let S2 := sn * Real.sin x * Real.cos y
      let S3 := -sn * Real.sin y
      let Sxy := Real.sqrt (S1 * S1 + S2 * S2)
      let lon0 := 180 / Real.pi * Real.arctan (S2 / S1) + lambdaD
      let lat := 180 / Real.pi * Real.arctan (ea * ea / (eb * eb) * S3 / Sxy)
      let lon := if lon0 > 180 then lon0 - 360 else lon0
      some (lon, lat))
  else Except.error PyErr.valueError

/-- `lc2latlon` of core/lc2latlon.py: when `sat = 'FY4'` and a resolution
keyword is given it overrides the scale constants (`ValueError` on an
unknown resolution); otherwise the passed parameters are used as is. -/
noncomputable def coreNav (sat : String) (resolution : Option ℕ)
    (subLon COFF CFAC LOFF LFAC h ea eb : ℝ) (col row : ℝ) :
    Except PyErr (Option (ℝ × ℝ)) :=
  let sel : Except PyErr (ℝ × ℝ × ℝ × ℝ) :=
    match resolution with
    | some r =>
      if sat = "FY4" then
        if r = 250 ∨ r = 500 ∨ r = 1000 ∨ r = 2000 ∨ r = 4000 then
          Except.ok (fy4COFF r, fy4CFAC r, fy4COFF r, fy4CFAC r)
        else Except.error PyErr.valueError
      else Except.ok (COFF, CFAC, LOFF, LFAC)
    | none => Except.ok (COFF, CFAC, LOFF, LFAC)
  match sel with
  | Except.error e => Except.error e
  | Except.ok (COFF, CFAC, LOFF, LFAC) =>
    let x := Real.pi / 180 * (col - COFF) / (2 ^ (-16 : ℤ) * CFAC)
    let y := Real.pi / 180 * (row - LOFF) / (2 ^ (-16 : ℤ) * LFAC)
    let rad := (h * Real.cos x * Real.cos y) ^ 2 -
      (Real.cos y * Real.cos y + ea * ea / (eb * eb) * Real.sin y * Real.sin y) *
        (h * h - ea * ea)
    Except.ok (if rad < 0 then none
    else
      let sd := Real.sqrt rad
      let sn := (h * Real.cos x * Real.cos y - sd) /
        (Real.cos y * Real.cos y + ea * ea / (eb * eb) * Real.sin y * Real.sin y)
      let S1 := h - sn * Real.cos x * Real.cos y
      let S2 := sn * Real.sin x * Real.cos y
      let S3 := -sn * Real.sin y
      let Sxy := Real.sqrt (S1 * S1 + S2 * S2)
      let lon0 := 180 / Real.pi * Real.arctan (S2 / S1) + subLon
      let lat := 180 / Real.pi * Real.arctan (ea * ea / (eb * eb) * S3 / Sxy)
      let lon := if lon0 > 180 then lon0 - 360 else lon0
      some (lon, lat))

/-- `lc2latlon_himawari8` of Himawari8.py: all parameters from the
caller's bag, same body. -/
noncomputable def himawariNav (subLon CFAC LFAC COFF LOFF h ea eb : ℝ)
    (col row : ℝ) : Option (ℝ × ℝ) :=
  let x := Real.pi / 180 * (col - COFF) / (2 ^ (-16 : ℤ) * CFAC)
  let y := Real.pi / 180 * (row - LOFF) / (2 ^ (-16 : ℤ) * LFAC)
  let rad := (h * Real.cos x * Real.cos y) ^ 2 -
    (Real.cos y * Real.cos y + ea * ea / (eb * eb) * Real.sin y * Real.sin y) *
      (h * h - ea * ea)
  if rad < 0 then none
  else
    let sd := Real.sqrt rad
    let sn := (h * Real.cos x * Real.cos y - sd) /
      (Real.cos y * Real.cos y + ea * ea / (eb * eb) * Real.sin y * Real.sin y)
    let S1 := h - sn * Real.cos x * Real.cos y
    let S2 := sn * Real.sin x * Real.cos y
    let S3 := -sn * Real.sin y
    let Sxy := Real.sqrt (S1 * S1 + S2 * S2)
    let lon0 := 180 / Real.pi * Real.arctan (S2 / S1) + subLon
    let lat := 180 / Real.pi * Real.arctan (ea * ea / (eb * eb) * S3 / Sxy)
    let lon := if lon0 > 180 then lon0 - 360 else lon0
    some (lon, lat)

lemma fy4aNav_eq_navFormula (col row : ℝ) (r : ℕ) (lambdaD h : ℝ)
    (hr : r = 250 ∨ r = 500 ∨ r = 1000 ∨ r = 2000 ∨ r = 4000) :
    fy4aNav col row r lambdaD h =
      Except.ok (navFormula (fy4COFF r) (fy4COFF r) (fy4CFAC r) (fy4CFAC r)
        h 6378.137 6356.7523 lambdaD col row) := by
  unfold fy4aNav navFormula
  rw [if_pos hr]

lemma coreNav_eq_navFormula_res (r : ℕ) (subLon COFF CFAC LOFF LFAC h ea eb : ℝ)
    (col row : ℝ)
    (hr : r = 250 ∨ r = 500 ∨ r = 1000 ∨ r = 2000 ∨ r = 4000) :
    coreNav "FY4" (some r) subLon COFF CFAC LOFF LFAC h ea eb col row =
      Except.ok (navFormula (fy4COFF r) (fy4COFF r) (fy4CFAC r) (fy4CFAC r)
        h ea eb subLon col row) := by
  unfold coreNav navFormula
  simp only [if_pos hr, reduceIte]

lemma coreNav_eq_navFormula_none (sat : String)
    (subLon COFF CFAC LOFF LFAC h ea eb : ℝ) (col row : ℝ) :
    coreNav sat none subLon COFF CFAC LOFF LFAC h ea eb col row =
      Except.ok (navFormula COFF LOFF CFAC LFAC h ea eb subLon col row) := by
  unfold coreNav navFormula
  rfl

lemma himawariNav_eq_navFormula (subLon CFAC LFAC COFF LOFF h ea eb : ℝ)
    (col row : ℝ) :
    himawariNav subLon CFAC LFAC COFF LOFF h ea eb col row =
      navFormula COFF LOFF CFAC LFAC h ea eb subLon col row := by
  unfold himawariNav navFormula
  rfl

/-- At `(column, line) = (COFF, LOFF)` the scan angles vanish and the
formula collapses exactly to the sub-satellite point `(lambdaD, 0)`. -/
lemma navFormula_center (COFF LOFF CFAC LFAC h ea eb lambdaD : ℝ)
    (hea : 0 < ea) (hl : lambdaD ≤ 180) :
    navFormula COFF LOFF CFAC LFAC h ea eb lambdaD COFF LOFF =
      some (lambdaD, 0) := by
  unfold navFormula
  simp only [sub_self, zero_div, mul_zero, zero_mul, Real.cos_zero,
    Real.sin_zero, mul_one, one_mul, add_zero, zero_add, neg_zero, div_one,
    Real.arctan_zero, pow_two, sub_sub_cancel, Real.sqrt_mul_self hea.le]
  rw [if_neg (not_lt.mpr (mul_self_nonneg ea))]
  rw [if_neg (not_lt.mpr hl)]

/-- `(180 / pi) * arctan` lies strictly between -90 and 90. -/
lemma deg_arctan_bounds (u : ℝ) :
    -90 < 180 / Real.pi * Real.arctan u ∧
      180 / Real.pi * Real.arctan u < 90 := by
  have hpi : (0 : ℝ) < Real.pi := Real.pi_pos
  have hcoef : (0 : ℝ) < 180 / Real.pi := by positivity
  have hninety : 180 / Real.pi * (Real.pi / 2) = 90 := by
    field_simp
    ring
  constructor
  · have h1 := mul_lt_mul_of_pos_left (Real.neg_pi_div_two_lt_arctan u) hcoef
    have h2 : 180 / Real.pi * -(Real.pi / 2) = -90 := by
      rw [mul_neg, hninety]
    linarith
  · have h1 := mul_lt_mul_of_pos_left (Real.arctan_lt_pi_div_two u) hcoef
    linarith

lemma abs_deg_arctan_le (w : ℝ) : |180 / Real.pi * Real.arctan w| ≤ 90 := by
  obtain ⟨h1, h2⟩ := deg_arctan_bounds w
  exact abs_le.mpr ⟨by linarith, h2.le⟩

/-- The single-sided fold keeps the longitude in `(-180, 180]` exactly
when the sub-satellite longitude lies in `[-90, 180]`. -/
lemma fold_bounds (u lambdaD : ℝ) (hl1 : -90 ≤ lambdaD) (hl2 : lambdaD ≤ 180) :
    -180 < (if 180 / Real.pi * Real.arctan u + lambdaD > 180
        then 180 / Real.pi * Real.arctan u + lambdaD - 360
        else 180 / Real.pi * Real.arctan u + lambdaD) ∧
      (if 180 / Real.pi * Real.arctan u + lambdaD > 180
        then 180 / Real.pi * Real.arctan u + lambdaD - 360
        else 180 / Real.pi * Real.arctan u + lambdaD) ≤ 180 := by
  obtain ⟨h1, h2⟩ := deg_arctan_bounds u
  by_cases hfold : 180 / Real.pi * Real.arctan u + lambdaD > 180
  · rw [if_pos hfold]
    constructor
    · linarith
    · linarith
  · rw [if_neg hfold]
    constructor
    · linarith
    · linarith

/-- Output range of the shared formula: a defined result has `|lat| ≤ 90`,
and, when the sub-satellite longitude lies in `[-90, 180]`, the folded
longitude lands in `(-180, 180]`. -/
lemma navFormula_range (COFF LOFF CFAC LFAC h ea eb lambdaD col row lon lat : ℝ)
    (hl1 : -90 ≤ lambdaD) (hl2 : lambdaD ≤ 180)
    (hsome : navFormula COFF LOFF CFAC LFAC h ea eb lambdaD col row =
      some (lon, lat)) :
    |lat| ≤ 90 ∧ -180 < lon ∧ lon ≤ 180 := by
  unfold navFormula at hsome
  simp only [] at hsome
  split at hsome
  · exact absurd hsome (by simp)
  · rw [Option.some.injEq, Prod.mk.injEq] at hsome
    obtain ⟨hlon, hlat⟩ := hsome
    refine ⟨?_, ?_⟩
    · rw [← hlat]
      exact abs_deg_arctan_le _
    · rw [← hlon]
      exact fold_bounds _ lambdaD hl1 hl2

/-- C3 counterexample. With the admissible sub-satellite longitude -180
(the metadata range is [-180, 180)) and integer offsets COFF = LOFF = 100,
the navigation model at grid point (100, 100) returns longitude exactly
-180, which is outside (-180, 180]: the single-sided fold only corrects
longitudes above 180. -/
theorem C3_counterexample :
    himawariNav (-180) 10233137 10233137 100 100 42164 6378.137 6356.7523
        100 100 = some (-180, 0) ∧
      ¬((-180 : ℝ) ∈ Set.Ioc (-180 : ℝ) 180) := by
  constructor
  · rw [himawariNav_eq_navFormula]
    exact navFormula_center 100 100 10233137 10233137 42164 6378.137
      6356.7523 (-180) (by norm_num) (by norm_num)
  · simp

/-- C3 amended: for every defined output of the navigation model,
`|lat| ≤ 90`; and provided the sub-satellite longitude lies in
`[-90, 180]` (all supported satellites sit between 86.5E and 140.7E),
the longitude lies in `(-180, 180]`. -/
theorem C3_output_range (subLon CFAC LFAC COFF LOFF h ea eb col row lon lat : ℝ)
    (hl1 : -90 ≤ subLon) (hl2 : subLon ≤ 180)
    (hsome : himawariNav subLon CFAC LFAC COFF LOFF h ea eb col row =
      some (lon, lat)) :
    |lat| ≤ 90 ∧ lon ∈ Set.Ioc (-180 : ℝ) 180 := by
  rw [himawariNav_eq_navFormula] at hsome
  obtain ⟨h1, h2, h3⟩ :=
    navFormula_range COFF LOFF CFAC LFAC h ea eb subLon col row lon lat
      hl1 hl2 hsome
  exact ⟨h1, h2, h3⟩

/-- Witness for C3 amended, at the sub-satellite point of a 104.7E
satellite. -/
theorem C3_output_range_witness :
    (-90 ≤ (104.7 : ℝ)) ∧ ((104.7 : ℝ) ≤ 180) ∧
      (|(0 : ℝ)| ≤ 90 ∧ (104.7 : ℝ) ∈ Set.Ioc (-180 : ℝ) 180) := by
  have hsome : himawariNav 104.7 10233137 10233137 100 100 42164 6378.137
      6356.7523 100 100 = some (104.7, 0) := by
    rw [himawariNav_eq_navFormula]
    exact navFormula_center 100 100 10233137 10233137 42164 6378.137
      6356.7523 104.7 (by norm_num) (by norm_num)
  exact ⟨by norm_num, by norm_num,
    C3_output_range 104.7 10233137 10233137 100 100 42164 6378.137 6356.7523
      100 100 104.7 0 (by norm_num) (by norm_num) hsome⟩

/-- C8. At `line = LOFF`, `column = COFF` the navigation model returns
exactly the sub-satellite point — latitude 0 and longitude the
sub-satellite longitude — hence within the claimed 1e-3 degree
tolerance, for every valid resolution and admissible longitude. -/
theorem C8_subsatellite_point (r : ℕ) (lambdaD h : ℝ)
    (hr : r = 250 ∨ r = 500 ∨ r = 1000 ∨ r = 2000 ∨ r = 4000)
    (hl : lambdaD ≤ 180) :
    ∃ lon lat : ℝ,
      fy4aNav (fy4COFF r) (fy4COFF r) r lambdaD h = Except.ok (some (lon, lat)) ∧
      |lat - 0| ≤ 1 / 1000 ∧ |lon - lambdaD| ≤ 1 / 1000 := by
  refine ⟨lambdaD, 0, ?_, by norm_num, by norm_num⟩
  rw [fy4aNav_eq_navFormula _ _ _ _ _ hr]
  rw [navFormula_center _ _ _ _ _ _ _ _ (by norm_num) hl]

/-- Witness for C8 at 4000 m resolution, 104.7E, h = 42164 km. -/
theorem C8_subsatellite_point_witness :
    ∃ lon lat : ℝ,
      fy4aNav (fy4COFF 4000) (fy4COFF 4000) 4000 104.7 42164 =
        Except.ok (some (lon, lat)) ∧
      |lat - 0| ≤ 1 / 1000 ∧ |lon - 104.7| ≤ 1 / 1000 :=
  C8_subsatellite_point 4000 104.7 42164 (by norm_num) (by norm_num)

/-- C9. Navigation equivalence: with equal coordinates and the same seven
scalar parameters (a valid resolution selecting the FY-4 constants), the
FY4A variant, the core variant, and the Himawari-8 variant return
identical outputs — the mapping has no satellite-specific branching
beyond parameter selection. -/
theorem C9_navigation_equivalence (r : ℕ)
    (subLon COFF CFAC LOFF LFAC h ea eb col row : ℝ)
    (hr : r ∈ fy4Resolutions) :
    fy4aNav col row r subLon h =
      Except.ok (himawariNav subLon (fy4CFAC r) (fy4CFAC r) (fy4COFF r)
        (fy4COFF r) h 6378.137 6356.7523 col row) ∧
    coreNav "FY4" (some r) subLon COFF CFAC LOFF LFAC h ea eb col row =
      Except.ok (himawariNav subLon (fy4CFAC r) (fy4CFAC r) (fy4COFF r)
        (fy4COFF r) h ea eb col row) ∧
    coreNav "Himawari8" none subLon COFF CFAC LOFF LFAC h ea eb col row =
      Except.ok (himawariNav subLon CFAC LFAC COFF LOFF h ea eb col row) := by
  have hr' : r = 250 ∨ r = 500 ∨ r = 1000 ∨ r = 2000 ∨ r = 4000 := by
    simpa [fy4Resolutions] using hr
  refine ⟨?_, ?_, ?_⟩
  · rw [fy4aNav_eq_navFormula _ _ _ _ _ hr', himawariNav_eq_navFormula]
  · rw [coreNav_eq_navFormula_res _ _ _ _ _ _ _ _ _ _ _ hr',
      himawariNav_eq_navFormula]
  · rw [coreNav_eq_navFormula_none, himawariNav_eq_navFormula]

/-- Witness for C9 at 4000 m resolution and concrete inputs. -/
theorem C9_navigation_equivalence_witness :
    (4000 ∈ fy4Resolutions) ∧
    (fy4aNav 5 6 4000 104.7 42164 =
      Except.ok (himawariNav 104.7 (fy4CFAC 4000) (fy4CFAC 4000)
        (fy4COFF 4000) (fy4COFF 4000) 42164 6378.137 6356.7523 5 6) ∧
    coreNav "FY4" (some 4000) 104.7 1 2 3 4 42164 6378.137 6356.7523 5 6 =
      Except.ok (himawariNav 104.7 (fy4CFAC 4000) (fy4CFAC 4000)
        (fy4COFF 4000) (fy4COFF 4000) 42164 6378.137 6356.7523 5 6) ∧
    coreNav "Himawari8" none 104.7 1 2 3 4 42164 6378.137 6356.7523 5 6 =
      Except.ok (himawariNav 104.7 2 4 1 3 42164 6378.137 6356.7523 5 6)) :=
  ⟨by decide,
   C9_navigation_equivalence 4000 104.7 1 2 3 4 42164 6378.137 6356.7523 5 6
     (by decide)⟩

/-! ## Planck inversion

Embeds the thermal branch of `himawari8_hsd.calibrate_data`
(Himawari8.py lines 274-287). The value domain is IEEE-754 double
semantics over exact reals: finite values plus the two infinities and
NaN, with numpy's quiet behavior (division by zero gives a signed
infinity with only a warning, `np.log` of a negative number gives NaN,
`np.log(0)` gives negative infinity). -/

/-- A numpy float64 value: NaN, the infinities, or a finite real. -/
inductive PFloat where
  | nan
  | inf
  | ninf
  | fin (x : ℝ)

/-- IEEE multiplication; infinity times zero is NaN. -/
noncomputable def PFloat.mul : PFloat → PFloat → PFloat
  | PFloat.nan, _ => PFloat.nan
  | _, PFloat.nan => PFloat.nan
  | PFloat.fin a, PFloat.fin b => PFloat.fin (a * b)
  | PFloat.inf, PFloat.fin b =>
    if 0 < b then PFloat.inf else if b < 0 then PFloat.ninf else PFloat.nan
  | PFloat.fin a, PFloat.inf =>
    if 0 < a then PFloat.inf else if a < 0 then PFloat.ninf else PFloat.nan
  | PFloat.ninf, PFloat.fin b =>
    if 0 < b then PFloat.ninf else if b < 0 then PFloat.inf else PFloat.nan
  | PFloat.fin a, PFloat.ninf =>
    if 0 < a then PFloat.ninf else if a < 0 then PFloat.inf else PFloat.nan
  | PFloat.inf, PFloat.inf => PFloat.inf
  | PFloat.inf, PFloat.ninf => PFloat.ninf
  | PFloat.ninf, PFloat.inf => PFloat.ninf
  | PFloat.ninf, PFloat.ninf => PFloat.inf

/-- IEEE addition; opposite infinities give NaN. -/
noncomputable def PFloat.add : PFloat → PFloat → PFloat
  | PFloat.nan, _ => PFloat.nan
  | _, PFloat.nan => PFloat.nan
  | PFloat.fin a, PFloat.fin b => PFloat.fin (a + b)
  | PFloat.inf, PFloat.ninf => PFloat.nan
  | PFloat.ninf, PFloat.inf => PFloat.nan
  | PFloat.inf, _ => PFloat.inf
  | PFloat.ninf, _ => PFloat.ninf
  | _, PFloat.inf => PFloat.inf
  | _, PFloat.ninf => PFloat.ninf

/-- numpy division: a nonzero finite value over (positive) zero is a
signed infinity, zero over zero is NaN, a finite value over an infinity
is zero, infinity over infinity is NaN (sign of zero not tracked). -/
noncomputable def PFloat.div : PFloat → PFloat → PFloat
  | PFloat.nan, _ => PFloat.nan
  | _, PFloat.nan => PFloat.nan
  | PFloat.fin a, PFloat.fin b =>
    if b = 0 then
      (if 0 < a then PFloat.inf else if a < 0 then PFloat.ninf else PFloat.nan)
    else PFloat.fin (a / b)
  | PFloat.fin _, PFloat.inf => PFloat.fin 0
  | PFloat.fin _, PFloat.ninf => PFloat.fin 0
  | PFloat.inf, PFloat.fin b => if b < 0 then PFloat.ninf else PFloat.inf
  | PFloat.ninf, PFloat.fin b => if b < 0 then PFloat.inf else PFloat.ninf
  | PFloat.inf, PFloat.inf => PFloat.nan
  | PFloat.inf, PFloat.ninf => PFloat.nan
  | PFloat.ninf, PFloat.inf => PFloat.nan
  | PFloat.ninf, PFloat.ninf => PFloat.nan

/-- `np.log`: NaN below zero, negative infinity at zero, monotone to
infinity at infinity. -/
noncomputable def PFloat.log : PFloat → PFloat
  | PFloat.nan => PFloat.nan
  | PFloat.inf => PFloat.inf
  | PFloat.ninf => PFloat.nan
  | PFloat.fin a =>
    if 0 < a then PFloat.fin (Real.log a)
    else if a = 0 then PFloat.ninf else PFloat.nan

/-- `x ** n` for a natural exponent, by repeated IEEE multiplication. -/
noncomputable def PFloat.pow (x : PFloat) : ℕ → PFloat
  | 0 => PFloat.fin 1
  | n + 1 => PFloat.mul x (PFloat.pow x n)

noncomputable instance : Mul PFloat := ⟨PFloat.mul⟩
noncomputable instance : Add PFloat := ⟨PFloat.add⟩
noncomputable instance : Div PFloat := ⟨PFloat.div⟩

/-- Effective brightness temperature
`Te = h * c / k / wl / np.log(2*h*c*c/((wl**5)*radiance)+1)` with the
scalar Planck constants finite and the radiance a numpy value. -/
noncomputable def planckTe (h c k wl : ℝ) (radiance : PFloat) : PFloat :=
  PFloat.fin h * PFloat.fin c / PFloat.fin k / PFloat.fin wl /
    PFloat.log (PFloat.fin 2 * PFloat.fin h * PFloat.fin c * PFloat.fin c /
      (PFloat.pow (PFloat.fin wl) 5 * radiance) + PFloat.fin 1)

/-- Brightness temperature `Tb = c0 + c1 * Te + c2 * Te * Te`. -/
noncomputable def planckTb (h c k wl c0 c1 c2 : ℝ) (radiance : PFloat) :
    PFloat :=
  PFloat.fin c0 + PFloat.fin c1 * planckTe h c k wl radiance +
    PFloat.fin c2 * planckTe h c k wl radiance * planckTe h c k wl radiance

/-- C4 failing input. At radiance exactly 0 (with unit constants and
`c0 = 5`) the chain evaluates `2*h*c*c/0 = inf`, `log(inf + 1) = inf`,
`Te = (h*c/k/wl)/inf = 0`, so the brightness temperature is the finite
value `c0` — not NaN as the claim requires (and no exception is raised:
the embedding is a total function). -/
theorem C4_planck_zero_radiance_not_nan :
    planckTb 1 1 1 1 5 1 1 (PFloat.fin 0) = PFloat.fin 5 ∧
      PFloat.fin (5 : ℝ) ≠ PFloat.nan := by
  constructor
  · unfold planckTb planckTe
    norm_num [PFloat.pow, HMul.hMul, HDiv.hDiv, HAdd.hAdd, Mul.mul, Div.div,
      Add.add, PFloat.mul, PFloat.div, PFloat.add, PFloat.log]
  · intro hcontra
    cases hcontra
